import Mathlib

set_option linter.unusedVariables false

/-!
Verification of the SuperCETES repository's error-normalization layer
(`src/stellarMainnetExample.ts`: `parseAxiosError`, `parseHorizonError`,
`formatStellarError`), of the UI "operation in flight" mutual exclusion in
`src/App.tsx`, and of the issuer validation in `createTrustlineOnMainnet`.

The JavaScript dynamic values that flow into the normalizer are modelled by
the inductive type `JSVal`.  Machinery that the source relies on
(`JSON.stringify`, string conversion, truthiness, the `in` operator,
property access) is modelled by executable Lean functions; a JS exception is
modelled by `Except Unit` (or by `Option.none` in `jsonStringify`, where
`none` means the call throws).
-/

/-- Model of a JavaScript runtime value as it can reach the error
normalizer.  `obj isError fields` is a plain object (an `Error` instance
when `isError` is true; a constructed `Error` always carries its `message`
entry, own or inherited, so embedded `Error` values list it explicitly).
`cyc` stands for an object that contains a reference cycle: it behaves as a
field-free object except that `JSON.stringify` throws on it. -/
inductive JSVal where
  | undefined
  | null
  | boolean (b : Bool)
  | num (n : Int)
  | str (s : String)
  | obj (isError : Bool) (fields : List (String × JSVal))
  | cyc

/-- JavaScript `Array.prototype.join(sep)` on a list of strings. -/
def joinSep (sep : String) : List String → String
  | [] => ""
  | [s] => s
  | s :: rest => s ++ sep ++ joinSep sep rest

/-- Decimal digits of a natural number, most significant first; the first
argument is recursion fuel (any fuel larger than the digit count works). -/
def natDigitsAux : Nat → Nat → List Char
  | 0, _ => []
  | fuel + 1, n =>
    if n < 10 then [Nat.digitChar n]
    else natDigitsAux fuel (n / 10) ++ [Nat.digitChar (n % 10)]

/-- Decimal rendering of a natural number, as JavaScript prints it. -/
def jsNatToString (n : Nat) : String := String.mk (natDigitsAux (n + 1) n)

/-- Decimal rendering of an integer, as JavaScript prints it. -/
def jsIntToString : Int → String
  | Int.ofNat m => jsNatToString m
  | Int.negSucc m => "-" ++ jsNatToString (m + 1)

/-- JavaScript truthiness of a value. -/
def truthy : JSVal → Bool
  | .undefined => false
  | .null => false
  | .boolean b => b
  | .num n => n != 0
  | .str s => s != ""
  | .obj _ _ => true
  | .cyc => true

/-- JavaScript `String(v)` conversion.  Objects convert to
`"[object Object]"`; `Error` instances actually print as
`"Error: <message>"`, but no path analysed here interpolates an `Error`
instance, and only the non-emptiness of the result matters below, so the
generic object rendering is used for them as well. -/
def jsToString : JSVal → String
  | .undefined => "undefined"
  | .null => "null"
  | .boolean b => if b then "true" else "false"
  | .num n => jsIntToString n
  | .str s => s
  | .obj _ _ => "[object Object]"
  | .cyc => "[object Object]"

/-- The `typeof error === 'object' && error !== null` test. -/
def isNonNullObj : JSVal → Bool
  | .obj _ _ => true
  | .cyc => true
  | _ => false

/-- The `instanceof Error` test. -/
def isErrorInst : JSVal → Bool
  | .obj true _ => true
  | _ => false

/-- The `typeof v === 'string'` test. -/
def isString : JSVal → Bool
  | .str _ => true
  | _ => false

/-- JavaScript `key in v` (own or listed property of an object; `false` on
non-objects, which the source only reaches behind object guards). -/
def hasField : JSVal → String → Bool
  | .obj _ fields, k => (fields.lookup k).isSome
  | _, _ => false

/-- Property access `v.key` / `v?.key`.  On `null`/`undefined` a plain
access would throw, but every access in the source is either behind an
object guard or uses optional chaining, which yields `undefined`; on other
primitives the access yields `undefined`. -/
def getField : JSVal → String → JSVal
  | .obj _ fields, k => ((fields.lookup k).getD JSVal.undefined)
  | _, _ => .undefined

/-- Nullish coalescing `v ?? d`. -/
def jsNullishGetD (v d : JSVal) : JSVal :=
  match v with
  | .undefined => d
  | .null => d
  | _ => v

/-- The `v === undefined || v === null` test. -/
def isNullish : JSVal → Bool
  | .undefined => true
  | .null => true
  | _ => false

/-- One character of `JSON.stringify` string escaping. -/
def jsonEscapeChar (c : Char) : String :=
  if c = '"' then "\\\""
  else if c = '\\' then "\\\\"
  else String.singleton c

/-- `JSON.stringify` rendering of a string (quoted and escaped). -/
def jsonQuote (s : String) : String :=
  "\"" ++ String.join (s.toList.map jsonEscapeChar) ++ "\""

mutual

/-- JavaScript `JSON.stringify(v)`.  The result is `none` when the call
throws (a cyclic object anywhere in the value).  `JSON.stringify(undefined)`
actually returns `undefined` rather than a string, but both call sites in
the source test truthiness first, so that case is unreachable there and is
also mapped to `none`. -/
def jsonStringify : JSVal → Option String
  | .undefined => none
  | .null => some "null"
  | .boolean b => some (if b then "true" else "false")
  | .num n => some (jsIntToString n)
  | .str s => some (jsonQuote s)
  | .cyc => none
  | .obj _ fields =>
    (jsonStringifyFields fields).map (fun body => "\x7b" ++ joinSep "," body ++ "\x7d")

/-- Field-by-field serialisation for `jsonStringify`; `undefined`-valued
entries are skipped, as `JSON.stringify` does. -/
def jsonStringifyFields : List (String × JSVal) → Option (List String)
  | [] => some []
  | (k, v) :: rest =>
    match v with
    | .undefined => jsonStringifyFields rest
    | v' =>
      match jsonStringify v' with
      | none => none
      | some j => (jsonStringifyFields rest).map (fun tail => (jsonQuote k ++ ":" ++ j) :: tail)

end

/-- Guard of `parseAxiosError` (`src/stellarMainnetExample.ts:153-158`):
the value is a non-null object with a truthy `isAxiosError` property. -/
def axiosGuard (e : JSVal) : Bool :=
  isNonNullObj e && hasField e "isAxiosError" && truthy (getField e "isAxiosError")

/-- Fragment assembly of `parseAxiosError`
(`src/stellarMainnetExample.ts:169-176`): the four candidate parts are
filtered by truthiness and joined with `" – "`; if all are absent the fixed
string is produced.  `dataPart` is the already-stringified
`Response: ...` part (or `none`). -/
def axiosJoin (status statusText message : JSVal) (dataPart : Option String) : String :=
  let parts := List.filterMap id
    [ if truthy status then some ("HTTP " ++ jsToString status) else none,
      if truthy statusText then some (jsToString statusText) else none,
      if truthy message then some (jsToString message) else none,
      dataPart ]
  if parts.length > 0 then joinSep " – " parts else "Network request failed (Axios)."

/-- Model of `parseAxiosError` (`src/stellarMainnetExample.ts:152-180`).
`Except.error ()` models the function throwing: `JSON.stringify(data)` is
evaluated with no surrounding try/catch when `data` is truthy. -/
def parseAxiosError (e : JSVal) : Except Unit (Option String) :=
  if axiosGuard e then
    let status := getField (getField e "response") "status"
    let statusText := getField (getField e "response") "statusText"
    let message := jsNullishGetD (getField e "message") (.str "Request failed")
    let data := getField (getField e "response") "data"
    if truthy data then
      match jsonStringify data with
      | none => Except.error ()
      | some j => Except.ok (some (axiosJoin status statusText message (some ("Response: " ++ j))))
    else
      Except.ok (some (axiosJoin status statusText message none))
  else
    Except.ok none

/-- Guard of `parseHorizonError` (`src/stellarMainnetExample.ts:183-188`):
note that both `'response' in error` and `'status' in error` probe the
top-level object. -/
def horizonGuard (e : JSVal) : Bool :=
  isNonNullObj e && hasField e "response" && hasField e "status"

/-- Fragment assembly of `parseHorizonError`
(`src/stellarMainnetExample.ts:196-205`); `none` when no part is present. -/
def horizonJoin (status title detail : JSVal) (extrasPart : Option String) : Option String :=
  let parts := List.filterMap id
    [ if truthy status then some ("Horizon HTTP " ++ jsToString status) else none,
      if truthy title then some (jsToString title) else none,
      if truthy detail then some (jsToString detail) else none,
      extrasPart ]
  if parts.length > 0 then some (joinSep " – " parts) else none

/-- Body of the `try` block of `parseHorizonError`
(`src/stellarMainnetExample.ts:189-205`); `Except.error ()` models the body
throwing, which happens exactly when `extras` is truthy and
`JSON.stringify(extras)` throws. -/
def parseHorizonErrorTry (e : JSVal) : Except Unit (Option String) :=
  let response := getField e "response"
  let status := getField response "status"
  let title := getField (getField response "data") "title"
  let detail := getField (getField response "data") "detail"
  let extras := getField (getField response "data") "extras"
  if truthy extras then
    match jsonStringify extras with
    | none => Except.error ()
    | some j => Except.ok (horizonJoin status title detail (some ("Extras: " ++ j)))
  else
    Except.ok (horizonJoin status title detail none)

/-- Model of `parseHorizonError` (`src/stellarMainnetExample.ts:182-212`):
the guarded `try` body with its `catch` swallowing any exception into
`null`. -/
def parseHorizonError (e : JSVal) : Option String :=
  if horizonGuard e then
    match parseHorizonErrorTry e with
    | .ok r => r
    | .error _ => none
  else none

/-- Truthiness of a `string | null` value (`axiosInfo || horizonInfo` and
`filter(Boolean)` in `formatStellarError`). -/
def truthyStrOpt : Option String → Bool
  | some s => s != ""
  | none => false

/-- Model of `formatStellarError` (`src/stellarMainnetExample.ts:214-236`).
The result is a `JSVal` because the `error instanceof Error` branch returns
`error.message` unconverted; `Except.error ()` models the call throwing
(propagated from `parseAxiosError`). -/
def formatStellarError (e : JSVal) (fallbackMessage : String) : Except Unit JSVal :=
  match parseAxiosError e with
  | .error u => .error u
  | .ok axiosInfo =>
    let horizonInfo := parseHorizonError e
    if truthyStrOpt axiosInfo || truthyStrOpt horizonInfo then
      .ok (.str (joinSep " | "
        (([axiosInfo, horizonInfo].filterMap id).filter (fun s => s != ""))))
    else if isErrorInst e && truthy (getField e "message") then
      .ok (getField e "message")
    else if isNonNullObj e && hasField e "message" && isString (getField e "message") then
      .ok (.str (jsToString (getField e "message")))
    else
      .ok (.str fallbackMessage)

/-- Condition under which `parseAxiosError` (and hence `formatStellarError`)
throws: the Axios guard holds, `response.data` is truthy, and
`JSON.stringify` fails on it. -/
def axiosThrows (e : JSVal) : Bool :=
  axiosGuard e
    && truthy (getField (getField e "response") "data")
    && (jsonStringify (getField (getField e "response") "data")).isNone

/-- Condition under which the `error instanceof Error && error.message`
branch of `formatStellarError` returns a non-string value: an `Error`
instance whose truthy `message` is not a string. -/
def errNonStringMessage (e : JSVal) : Bool :=
  isErrorInst e && truthy (getField e "message") && !isString (getField e "message")

/-! UI state machine of `src/App.tsx`.  The state projects the React state
onto what the mutual-exclusion claim needs: whether the module-level
`stellarSecret` is non-empty, whether a wallet has been provisioned, and
the `operationInFlight` flag (`src/App.tsx:47-49`).  Events are the user
actions on the blockchain-operation buttons plus wallet lifecycle; a button
click is only deliverable when the button is enabled
(`disabled=\x7boperationsDisabled || operationInFlight === k\x7d`). -/

/-- Discriminant of the five blockchain operations, after the union type of
`operationInFlight` in `src/App.tsx:47-49`. -/
inductive OpKind where
  | native
  | asset
  | trust
  | supply
  | withdraw
deriving DecidableEq

/-- Projection of the `App` component state used by the mutual-exclusion
claim. -/
structure UiState where
  hasSecret : Bool
  hasWallet : Bool
  operationInFlight : Option OpKind
deriving DecidableEq

/-- Events of the UI state machine: clicking an operation button, the
`finally` block of its handler completing, wallet provisioning, and
logout. -/
inductive UiEvent where
  | startOp (k : OpKind)
  | finishOp (k : OpKind)
  | provisionWallet
  | logoutDone

/-- Model of `operationsDisabled` (`src/App.tsx:173-176`). -/
def operationsDisabled (s : UiState) : Bool :=
  !s.hasSecret || !s.hasWallet || s.operationInFlight.isSome

/-- Step function of the UI state machine; `none` means the event cannot
fire in the given state (its button is disabled or its guard fails). -/
def uiStep (s : UiState) : UiEvent → Option UiState
  | .startOp k =>
    if operationsDisabled s || s.operationInFlight == some k then none
    else some { s with operationInFlight := some k }
  | .finishOp k =>
    if s.operationInFlight == some k then some { s with operationInFlight := none }
    else none
  | .provisionWallet =>
    if s.hasSecret && !s.hasWallet then some { s with hasWallet := true }
    else none
  | .logoutDone => some { s with hasWallet := false }

/-- States reachable from a session start (no wallet, no operation in
flight; the secret is fixed at module load). -/
inductive Reachable : UiState → Prop where
  | init (b : Bool) : Reachable ⟨b, false, none⟩
  | step {s s' : UiState} {e : UiEvent} : Reachable s → uiStep s e = some s' → Reachable s'

/-- Number of blockchain operations pending in a state. -/
def pendingOps (s : UiState) : Nat :=
  if s.operationInFlight.isSome then 1 else 0

/-! Trace model of the exported operation functions of
`src/stellarMainnetExample.ts`.  Each function is a fixed call sequence
into the ledger SDK; the model records which externally visible SDK steps
run, in order, and whether the function raises.  The SDK predicate
`StrKey.isValidEd25519PublicKey` is external to the repository and is
threaded in as an argument. -/

/-- Externally visible steps an operation function can perform. -/
inductive StellarAction where
  | validateIssuer (key : String)
  | loadAccount
  | poolSubmitOp (supply : Bool)
  | buildTx
  | signTx
  | submitTx
  | simulateTx
  | sendTx
deriving DecidableEq

/-- Trace model of `sendPaymentOnMainnet`
(`src/stellarMainnetExample.ts:43-71`): load account, build, sign,
submit; no issuer validation anywhere. -/
def sendPaymentOnMainnet (sourceSecret destinationPublicKey amount : String) :
    List StellarAction × Except String Unit :=
  ([.loadAccount, .buildTx, .signTx, .submitTx], .ok ())

/-- Trace model of `sendAssetPaymentOnMainnet`
(`src/stellarMainnetExample.ts:80-111`): same call sequence as the native
payment; no issuer validation. -/
def sendAssetPaymentOnMainnet
    (sourceSecret destinationPublicKey assetCode assetIssuerPublicKey amount : String) :
    List StellarAction × Except String Unit :=
  ([.loadAccount, .buildTx, .signTx, .submitTx], .ok ())

/-- Trace model of `createTrustlineOnMainnet`
(`src/stellarMainnetExample.ts:117-150`): the issuer key is validated
first; on failure the function throws
`"Asset issuer must be a valid Stellar public key (G...)."` before any
other step runs. -/
def createTrustlineOnMainnet (isValidEd25519PublicKey : String → Bool)
    (accountSecret assetCode assetIssuerPublicKey : String) (limit : Option String) :
    List StellarAction × Except String Unit :=
  if !isValidEd25519PublicKey assetIssuerPublicKey then
    ([.validateIssuer assetIssuerPublicKey],
     .error "Asset issuer must be a valid Stellar public key (G...).")
  else
    ([.validateIssuer assetIssuerPublicKey, .loadAccount, .buildTx, .signTx, .submitTx],
     .ok ())

/-- Trace model of `InteractPoolOp` (`src/stellarMainnetExample.ts:249-294`):
load account, build, simulate/prepare, sign, send; no issuer validation. -/
def InteractPoolOp (supply : Bool) (sourceSecret poolId asset : String) (amount : Int) :
    List StellarAction × Except String Unit :=
  ([.loadAccount, .poolSubmitOp supply, .buildTx, .simulateTx, .signTx, .sendTx], .ok ())

/-- `SupplyOp` (`src/stellarMainnetExample.ts:296`). -/
def SupplyOp := InteractPoolOp true

/-- `WithdrawalOp` (`src/stellarMainnetExample.ts:297`). -/
def WithdrawalOp := InteractPoolOp false

/-! Shared lemmas about the embedding. -/

theorem strMk_ne_empty {l : List Char} (h : l ≠ []) : String.mk l ≠ "" := by
  intro hm
  apply h
  have hd := congrArg String.data hm
  simpa using hd

theorem strAppend_ne_empty_left (a b : String) (h : a ≠ "") : a ++ b ≠ "" := by
  intro hab
  apply h
  have hd := congrArg String.data hab
  simp [String.data_append] at hd
  exact String.ext hd.1

theorem natDigitsAux_succ_ne_nil (fuel n : Nat) : natDigitsAux (fuel + 1) n ≠ [] := by
  simp only [natDigitsAux]
  split
  · simp
  · simp

theorem jsNatToString_ne_empty (n : Nat) : jsNatToString n ≠ "" :=
  strMk_ne_empty (natDigitsAux_succ_ne_nil n n)

theorem jsIntToString_ne_empty (n : Int) : jsIntToString n ≠ "" := by
  cases n with
  | ofNat m => exact jsNatToString_ne_empty m
  | negSucc m => exact strAppend_ne_empty_left "-" _ (by decide)

theorem jsToString_ne_empty (v : JSVal) (h : truthy v = true) : jsToString v ≠ "" := by
  cases v with
  | undefined => simp [truthy] at h
  | null => simp [truthy] at h
  | boolean b =>
    cases b with
    | false => simp [truthy] at h
    | true => simp [jsToString]
  | num n => exact jsIntToString_ne_empty n
  | str s => simpa [truthy] using h
  | obj isErr fields => simp [jsToString]
  | cyc => simp [jsToString]

theorem joinSep_ne_empty (sep : String) :
    ∀ l : List String, l ≠ [] → (∀ s ∈ l, s ≠ "") → joinSep sep l ≠ ""
  | [], h, _ => absurd rfl h
  | [s], _, hall => by simpa [joinSep] using hall s (by simp)
  | s :: s' :: rest, _, hall => by
    simp only [joinSep]
    exact strAppend_ne_empty_left _ _
      (strAppend_ne_empty_left _ _ (hall s (by simp)))

theorem ifJoin_ne_empty (sep fixed : String) (hfix : fixed ≠ "") (l : List String)
    (h : ∀ s ∈ l, s ≠ "") : (if l.length > 0 then joinSep sep l else fixed) ≠ "" := by
  cases l with
  | nil => simpa using hfix
  | cons x xs =>
    rw [if_pos (by simp)]
    exact joinSep_ne_empty sep _ (by simp) h

theorem axiosJoin_ne_empty (status statusText message : JSVal) (dataPart : Option String)
    (hd : ∀ s, dataPart = some s → s ≠ "") :
    axiosJoin status statusText message dataPart ≠ "" := by
  simp only [axiosJoin]
  apply ifJoin_ne_empty _ _ (by decide)
  intro s hs
  obtain ⟨o, ho, hid⟩ := List.mem_filterMap.mp hs
  simp only [id] at hid
  subst hid
  simp only [List.mem_cons, List.mem_singleton, List.not_mem_nil, or_false] at ho
  rcases ho with h1 | h2 | h3 | h4
  · split at h1
    · cases h1
      exact strAppend_ne_empty_left "HTTP " _ (by decide)
    · cases h1
  · split at h2
    case isTrue ht =>
      cases h2
      exact jsToString_ne_empty _ ht
    case isFalse => cases h2
  · split at h3
    case isTrue ht =>
      cases h3
      exact jsToString_ne_empty _ ht
    case isFalse => cases h3
  · exact hd s h4.symm

theorem ifJoinOpt_ne_empty (sep : String) (l : List String) (h : ∀ s ∈ l, s ≠ "")
    {b : String} (hb : (if l.length > 0 then some (joinSep sep l) else none) = some b) :
    b ≠ "" := by
  cases l with
  | nil => simp at hb
  | cons x xs =>
    rw [if_pos (by simp)] at hb
    cases hb
    exact joinSep_ne_empty sep _ (by simp) h

theorem horizonJoin_ne_empty (status title detail : JSVal) (extrasPart : Option String)
    (he : ∀ s, extrasPart = some s → s ≠ "") {b : String}
    (hb : horizonJoin status title detail extrasPart = some b) : b ≠ "" := by
  simp only [horizonJoin] at hb
  apply ifJoinOpt_ne_empty _ _ _ hb
  intro s hs
  obtain ⟨o, ho, hid⟩ := List.mem_filterMap.mp hs
  simp only [id] at hid
  subst hid
  simp only [List.mem_cons, List.mem_singleton, List.not_mem_nil, or_false] at ho
  rcases ho with h1 | h2 | h3 | h4
  · split at h1
    · cases h1
      exact strAppend_ne_empty_left "Horizon HTTP " _ (by decide)
    · cases h1
  · split at h2
    case isTrue ht =>
      cases h2
      exact jsToString_ne_empty _ ht
    case isFalse => cases h2
  · split at h3
    case isTrue ht =>
      cases h3
      exact jsToString_ne_empty _ ht
    case isFalse => cases h3
  · exact he s h4.symm

theorem parseAxiosError_fragment_ne_empty {e : JSVal} {a : String}
    (h : parseAxiosError e = Except.ok (some a)) : a ≠ "" := by
  simp only [parseAxiosError] at h
  split at h
  · split at h
    · split at h
      · cases h
      · injection h with h'
        injection h' with h''
        subst h''
        apply axiosJoin_ne_empty
        intro s hs
        cases hs
        exact strAppend_ne_empty_left "Response: " _ (by decide)
    · injection h with h'
      injection h' with h''
      subst h''
      apply axiosJoin_ne_empty
      intro s hs
      cases hs
  · cases h

theorem parseHorizonError_fragment_ne_empty {e : JSVal} {b : String}
    (h : parseHorizonError e = some b) : b ≠ "" := by
  simp only [parseHorizonError] at h
  split at h
  · split at h
    case h_1 r hr =>
      subst h
      simp only [parseHorizonErrorTry] at hr
      split at hr
      · split at hr
        · cases hr
        · injection hr with hr'
          apply horizonJoin_ne_empty _ _ _ _ _ hr'
          intro s hs
          cases hs
          exact strAppend_ne_empty_left "Extras: " _ (by decide)
      · injection hr with hr'
        apply horizonJoin_ne_empty _ _ _ _ _ hr'
        intro s hs
        cases hs
    case h_2 => cases h
  · cases h

theorem parseAxiosError_guard_false {e : JSVal} (h : axiosGuard e = false) :
    parseAxiosError e = Except.ok none := by
  simp [parseAxiosError, h]

theorem parseHorizonError_guard_false {e : JSVal} (h : horizonGuard e = false) :
    parseHorizonError e = none := by
  simp [parseHorizonError, h]

theorem hasField_of_getField_ne_undef {e : JSVal} {k : String}
    (h : getField e k ≠ JSVal.undefined) : hasField e k = true := by
  cases e with
  | obj isErr fields =>
    simp only [getField] at h
    simp only [hasField]
    cases hl : fields.lookup k with
    | none => simp [hl] at h
    | some v => simp [hl]
  | undefined => simp [getField] at h
  | null => simp [getField] at h
  | boolean b => simp [getField] at h
  | num n => simp [getField] at h
  | str s => simp [getField] at h
  | cyc => simp [getField] at h

/-! Claim theorems. -/

/-- C1 (counterexample): `formatStellarError` does not always return a
string without raising: on an Axios-marked error whose `response.data` is
cyclic, the unprotected `JSON.stringify(data)` call in `parseAxiosError`
throws and the exception escapes `formatStellarError`. -/
theorem formatStellarError_raises_on_cyclic_axios_data :
    formatStellarError
      (JSVal.obj false [("isAxiosError", JSVal.boolean true),
                        ("response", JSVal.obj false [("data", JSVal.cyc)])])
      "Transaction failed." = Except.error () := rfl

/-- C1 (amended): for every error value and fallback string,
`formatStellarError` returns without raising and its result is a string,
provided that (a) the error is not an Axios-marked object whose truthy
`response.data` fails to JSON-stringify (that case throws), and (b) the
error is not an `Error` instance whose truthy `message` is a non-string
(that case returns the raw message value). -/
theorem formatStellarError_total_when_stringifiable :
    ∀ (e : JSVal) (fallback : String),
      axiosThrows e = false → errNonStringMessage e = false →
      ∃ s : String, formatStellarError e fallback = Except.ok (JSVal.str s) := by
  intro e fallback hT hE
  rcases hPA : parseAxiosError e with u | info
  · exfalso
    simp only [parseAxiosError] at hPA
    split at hPA
    case isTrue hg =>
      split at hPA
      case isTrue hd =>
        split at hPA
        case h_1 hj =>
          simp [axiosThrows, hg, hd, hj] at hT
        case h_2 => exact Except.noConfusion hPA
      case isFalse => exact Except.noConfusion hPA
    case isFalse => exact Except.noConfusion hPA
  · cases h1 : truthyStrOpt info || truthyStrOpt (parseHorizonError e)
    case true =>
      refine ⟨joinSep " | " (([info, parseHorizonError e].filterMap id).filter
        (fun s => s != "")), ?_⟩
      simp only [formatStellarError, hPA, h1, if_true]
    case false =>
      cases h2 : isErrorInst e && truthy (getField e "message")
      case true =>
        have hstr : isString (getField e "message") = true := by
          by_contra hns
          have hbad : errNonStringMessage e = true := by
            simp only [errNonStringMessage, h2, Bool.true_and, Bool.not_eq_true']
            simpa using hns
          rw [hbad] at hE
          exact Bool.noConfusion hE
        cases hm : getField e "message" with
        | str s =>
          rw [hm] at h2
          refine ⟨s, ?_⟩
          simp only [formatStellarError, hPA, h1, h2, hm, Bool.false_eq_true, if_false, if_true]
        | undefined => rw [hm] at hstr; exact Bool.noConfusion hstr
        | null => rw [hm] at hstr; exact Bool.noConfusion hstr
        | boolean b => rw [hm] at hstr; exact Bool.noConfusion hstr
        | num n => rw [hm] at hstr; exact Bool.noConfusion hstr
        | obj isErr fields => rw [hm] at hstr; exact Bool.noConfusion hstr
        | cyc => rw [hm] at hstr; exact Bool.noConfusion hstr
      case false =>
        cases h3 : isNonNullObj e && hasField e "message" && isString (getField e "message")
        case true =>
          refine ⟨jsToString (getField e "message"), ?_⟩
          simp only [formatStellarError, hPA, h1, h2, h3, Bool.false_eq_true, if_false, if_true]
        case false =>
          refine ⟨fallback, ?_⟩
          simp only [formatStellarError, hPA, h1, h2, h3, Bool.false_eq_true, if_false]

/-- C1 witness: a plain string error satisfies both side conditions and
normalizes to the fallback string. -/
theorem formatStellarError_total_when_stringifiable_witness :
    axiosThrows (JSVal.str "boom") = false ∧
    errNonStringMessage (JSVal.str "boom") = false ∧
    ∃ s : String,
      formatStellarError (JSVal.str "boom") "Transaction failed." = Except.ok (JSVal.str s) :=
  ⟨rfl, rfl, formatStellarError_total_when_stringifiable (JSVal.str "boom") "Transaction failed." rfl rfl⟩

/-- C7: the ledger-API inspection never lets an internal exception escape:
whenever the `try` body of `parseHorizonError` throws (modelled by
`Except.error`), `parseHorizonError` returns `none`. -/
theorem parseHorizonError_swallows :
    ∀ e : JSVal, parseHorizonErrorTry e = Except.error () → parseHorizonError e = none := by
  intro e h
  simp [parseHorizonError, h]

/-- C7 witness: a ledger-shaped error whose `extras` cannot be
JSON-stringified makes the `try` body throw, and the parser yields no
fragment. -/
theorem parseHorizonError_swallows_witness :
    parseHorizonErrorTry
      (JSVal.obj false [("status", JSVal.num 1),
                        ("response", JSVal.obj false
                          [("status", JSVal.num 500),
                           ("data", JSVal.obj false [("extras", JSVal.cyc)])])])
      = Except.error () ∧
    parseHorizonError
      (JSVal.obj false [("status", JSVal.num 1),
                        ("response", JSVal.obj false
                          [("status", JSVal.num 500),
                           ("data", JSVal.obj false [("extras", JSVal.cyc)])])])
      = none :=
  ⟨rfl, parseHorizonError_swallows _ rfl⟩

/-- C8: in every reachable UI state at most one blockchain operation is
pending, and while the `operationInFlight` flag holds some operation, no
start event for any operation (the same or another) can fire. -/
theorem ui_at_most_one_operation :
    (∀ s : UiState, Reachable s → pendingOps s ≤ 1) ∧
    (∀ (s : UiState) (k k' : OpKind), s.operationInFlight = some k →
      uiStep s (UiEvent.startOp k') = none) := by
  constructor
  · intro s _
    simp only [pendingOps]
    split <;> simp
  · intro s k k' h
    simp [uiStep, operationsDisabled, h]

/-- C8 witness: the initial state has no pending operation, and with a
native payment in flight the asset-payment button cannot start. -/
theorem ui_at_most_one_operation_witness :
    pendingOps ⟨true, false, none⟩ ≤ 1 ∧
    uiStep ⟨true, true, some OpKind.native⟩ (UiEvent.startOp OpKind.asset) = none :=
  ⟨ui_at_most_one_operation.1 ⟨true, false, none⟩ (Reachable.init true),
   ui_at_most_one_operation.2 ⟨true, true, some OpKind.native⟩ OpKind.native OpKind.asset rfl⟩

/-- C9: when the issuer key is invalid, `createTrustlineOnMainnet` raises
exactly `"Asset issuer must be a valid Stellar public key (G...)."` having
performed only the validation step (no account loading, building, signing
or submission), and none of the other operation functions of the module
ever perform the issuer validation. -/
theorem createTrustline_validates_before_anything :
    ∀ (isValidEd25519PublicKey : String → Bool)
      (accountSecret assetCode assetIssuerPublicKey : String) (limit : Option String),
      isValidEd25519PublicKey assetIssuerPublicKey = false →
      (createTrustlineOnMainnet isValidEd25519PublicKey accountSecret assetCode
          assetIssuerPublicKey limit
        = ([StellarAction.validateIssuer assetIssuerPublicKey],
           Except.error "Asset issuer must be a valid Stellar public key (G...).")) ∧
      (∀ s d a key, StellarAction.validateIssuer key ∉ (sendPaymentOnMainnet s d a).1) ∧
      (∀ s d c i a key, StellarAction.validateIssuer key ∉ (sendAssetPaymentOnMainnet s d c i a).1) ∧
      (∀ b s p a amt key, StellarAction.validateIssuer key ∉ (InteractPoolOp b s p a amt).1) := by
  intro v accountSecret assetCode issuer lim h
  refine ⟨?_, ?_, ?_, ?_⟩
  · simp [createTrustlineOnMainnet, h]
  · intro s d a key
    simp [sendPaymentOnMainnet]
  · intro s d c i a key
    simp [sendAssetPaymentOnMainnet]
  · intro b s p a amt key
    simp [InteractPoolOp]

/-- C9 witness: a concrete invalid issuer key is rejected with the exact
message before any other step. -/
theorem createTrustline_validates_before_anything_witness :
    createTrustlineOnMainnet (fun _ => false) "SECRET" "USDC" "NOTAKEY" none
      = ([StellarAction.validateIssuer "NOTAKEY"],
         Except.error "Asset issuer must be a valid Stellar public key (G...).") :=
  (createTrustline_validates_before_anything (fun _ => false) "SECRET" "USDC" "NOTAKEY" none rfl).1

/-- C10: an object whose `message` property is the empty string, matching
neither the Axios nor the Horizon shape, makes `formatStellarError` return
the empty string instead of the caller-supplied fallback. -/
theorem formatStellarError_empty_message_wins :
    ∀ (e : JSVal) (fallback : String),
      axiosGuard e = false → horizonGuard e = false →
      isNonNullObj e = true → getField e "message" = JSVal.str "" →
      formatStellarError e fallback = Except.ok (JSVal.str "") := by
  intro e fallback hA hH hO hM
  have hPA := parseAxiosError_guard_false hA
  have hPH := parseHorizonError_guard_false hH
  have hF : hasField e "message" = true :=
    hasField_of_getField_ne_undef (by rw [hM]; intro hc; exact JSVal.noConfusion hc)
  simp [formatStellarError, hPA, hPH, hM, hO, hF, truthyStrOpt, truthy, isString, jsToString]

/-- C10 witness: a concrete object with an empty `message` and a non-empty
fallback yields the empty string. -/
theorem formatStellarError_empty_message_wins_witness :
    formatStellarError (JSVal.obj false [("message", JSVal.str "")]) "nonempty fallback"
      = Except.ok (JSVal.str "") :=
  formatStellarError_empty_message_wins _ _ rfl rfl rfl rfl

/-- Evaluation of `parseHorizonError` under its guard when `extras` is
falsy (nothing can throw in that case). -/
theorem parseHorizonError_eval {e : JSVal} (hG : horizonGuard e = true)
    (hE : truthy (getField (getField (getField e "response") "data") "extras") = false) :
    parseHorizonError e = horizonJoin (getField (getField e "response") "status")
      (getField (getField (getField e "response") "data") "title")
      (getField (getField (getField e "response") "data") "detail") none := by
  simp [parseHorizonError, parseHorizonErrorTry, hG, hE]

/-- Evaluation of `parseAxiosError` under its guard when `response.data` is
falsy (so `JSON.stringify` is not reached). -/
theorem parseAxiosError_eval_nodata {e : JSVal} (hG : axiosGuard e = true)
    (hD : truthy (getField (getField e "response") "data") = false) :
    parseAxiosError e = Except.ok (some (axiosJoin
      (getField (getField e "response") "status")
      (getField (getField e "response") "statusText")
      (jsNullishGetD (getField e "message") (JSVal.str "Request failed")) none)) := by
  simp [parseAxiosError, hG, hD]

/-- C2 (counterexample): the minimal ledger-API-shaped error — an object
carrying only a nested `response` with `status = 400`,
`data.title = "Bad Request"`, `data.detail = "op_underfunded"` — is not
formatted as the Horizon string: `parseHorizonError` also requires a
top-level `status` property (`'status' in error`), so this input falls
through to the fallback. -/
theorem horizon_shape_without_top_status_gets_fallback :
    formatStellarError
      (JSVal.obj false
        [("response", JSVal.obj false
          [("status", JSVal.num 400),
           ("data", JSVal.obj false
             [("title", JSVal.str "Bad Request"),
              ("detail", JSVal.str "op_underfunded")])])])
      "Transaction failed."
      = Except.ok (JSVal.str "Transaction failed.") ∧
    formatStellarError
      (JSVal.obj false
        [("response", JSVal.obj false
          [("status", JSVal.num 400),
           ("data", JSVal.obj false
             [("title", JSVal.str "Bad Request"),
              ("detail", JSVal.str "op_underfunded")])])])
      "Transaction failed."
      ≠ Except.ok (JSVal.str "Horizon HTTP 400 – Bad Request – op_underfunded") := by
  refine ⟨rfl, fun h => ?_⟩
  have h' : (Except.ok (JSVal.str "Transaction failed.") : Except Unit JSVal)
      = Except.ok (JSVal.str "Horizon HTTP 400 – Bad Request – op_underfunded") := h
  injection h' with h1
  injection h1 with h2
  exact absurd h2 (by decide)

/-- C2 (amended): for every error that in addition carries a top-level
`status` property (so that the ledger-API guard `'response' in error &&
'status' in error` holds), is not Axios-marked, has `response.status = 400`,
`response.data.title = "Bad Request"`, `response.data.detail =
"op_underfunded"` and falsy `response.data.extras`, `formatStellarError`
returns exactly `"Horizon HTTP 400 – Bad Request – op_underfunded"`. -/
theorem formatStellarError_horizon400_with_top_status :
    ∀ (e : JSVal) (fallback : String),
      axiosGuard e = false →
      horizonGuard e = true →
      getField (getField e "response") "status" = JSVal.num 400 →
      getField (getField (getField e "response") "data") "title" = JSVal.str "Bad Request" →
      getField (getField (getField e "response") "data") "detail" = JSVal.str "op_underfunded" →
      truthy (getField (getField (getField e "response") "data") "extras") = false →
      formatStellarError e fallback
        = Except.ok (JSVal.str "Horizon HTTP 400 – Bad Request – op_underfunded") := by
  intro e fallback hA hG hS hT hD hE
  have hPA := parseAxiosError_guard_false hA
  have hPH : parseHorizonError e = some "Horizon HTTP 400 – Bad Request – op_underfunded" := by
    rw [parseHorizonError_eval hG hE, hS, hT, hD]
    decide
  simp only [formatStellarError, hPA, hPH]
  rw [if_pos (by decide :
    (truthyStrOpt none
      || truthyStrOpt (some "Horizon HTTP 400 – Bad Request – op_underfunded")) = true)]
  rfl

/-- C2 witness: the counterexample object extended with a top-level
`status` property formats to the Horizon string. -/
theorem formatStellarError_horizon400_with_top_status_witness :
    formatStellarError
      (JSVal.obj false
        [("status", JSVal.num 400),
         ("response", JSVal.obj false
          [("status", JSVal.num 400),
           ("data", JSVal.obj false
             [("title", JSVal.str "Bad Request"),
              ("detail", JSVal.str "op_underfunded")])])])
      "Transaction failed."
      = Except.ok (JSVal.str "Horizon HTTP 400 – Bad Request – op_underfunded") :=
  formatStellarError_horizon400_with_top_status _ _ rfl rfl rfl rfl rfl rfl

/-- C3 (counterexample): an Axios-marked object with none of `status`,
`statusText`, `message`, `data` present yields the fragment
`"Request failed"` — the nullish-coalescing default for `message` — not
the fixed string `"Network request failed (Axios)."`. -/
theorem bare_axios_marker_gets_requestFailed :
    parseAxiosError (JSVal.obj false [("isAxiosError", JSVal.boolean true)])
      = Except.ok (some "Request failed") ∧
    formatStellarError (JSVal.obj false [("isAxiosError", JSVal.boolean true)])
      "Transaction failed."
      ≠ Except.ok (JSVal.str "Network request failed (Axios).") := by
  refine ⟨rfl, fun h => ?_⟩
  have h' : (Except.ok (JSVal.str "Request failed") : Except Unit JSVal)
      = Except.ok (JSVal.str "Network request failed (Axios).") := h
  injection h' with h1
  injection h1 with h2
  exact absurd h2 (by decide)

/-- C3 (amended): when the Axios marker is truthy and `status`,
`statusText` and `data` are all falsy while `message` is absent (nullish),
the fragment is `"Request failed"` (the `?? 'Request failed'` default for
`message`, which is truthy and therefore kept), and `formatStellarError`
returns it whenever no ledger-API fragment exists; the fixed string
`"Network request failed (Axios)."` would require a present-but-falsy
`message`. -/
theorem parseAxios_defaults_to_requestFailed :
    ∀ (e : JSVal) (fallback : String),
      axiosGuard e = true →
      truthy (getField (getField e "response") "status") = false →
      truthy (getField (getField e "response") "statusText") = false →
      truthy (getField (getField e "response") "data") = false →
      isNullish (getField e "message") = true →
      parseAxiosError e = Except.ok (some "Request failed") ∧
      (parseHorizonError e = none →
        formatStellarError e fallback = Except.ok (JSVal.str "Request failed")) := by
  intro e fallback hG hS hT hD hM
  have hmsg : jsNullishGetD (getField e "message") (JSVal.str "Request failed")
      = JSVal.str "Request failed" := by
    cases hm : getField e "message" with
    | undefined => rfl
    | null => rfl
    | boolean b => rw [hm] at hM; exact Bool.noConfusion hM
    | num n => rw [hm] at hM; exact Bool.noConfusion hM
    | str s => rw [hm] at hM; exact Bool.noConfusion hM
    | obj isErr fields => rw [hm] at hM; exact Bool.noConfusion hM
    | cyc => rw [hm] at hM; exact Bool.noConfusion hM
  have hPA : parseAxiosError e = Except.ok (some "Request failed") := by
    rw [parseAxiosError_eval_nodata hG hD, hmsg]
    simp only [axiosJoin, hS, hT, Bool.false_eq_true, if_false]
    rfl
  refine ⟨hPA, fun hPH => ?_⟩
  simp only [formatStellarError, hPA, hPH]
  rw [if_pos (by decide :
    (truthyStrOpt (some "Request failed") || truthyStrOpt none) = true)]
  rfl

/-- C3 witness: the bare Axios-marked object satisfies all the side
conditions and formats to `"Request failed"`. -/
theorem parseAxios_defaults_to_requestFailed_witness :
    parseAxiosError (JSVal.obj false [("isAxiosError", JSVal.boolean true)])
      = Except.ok (some "Request failed") ∧
    formatStellarError (JSVal.obj false [("isAxiosError", JSVal.boolean true)])
      "Transaction failed." = Except.ok (JSVal.str "Request failed") :=
  ⟨(parseAxios_defaults_to_requestFailed
      (JSVal.obj false [("isAxiosError", JSVal.boolean true)])
      "Transaction failed." rfl rfl rfl rfl rfl).1,
   (parseAxios_defaults_to_requestFailed
      (JSVal.obj false [("isAxiosError", JSVal.boolean true)])
      "Transaction failed." rfl rfl rfl rfl rfl).2 rfl⟩

/-- C4: the canonical Axios-shaped error with `status = 404`,
`statusText = "Not Found"`, `message = "Request failed"` and
`data = \x7b"x":1\x7d` formats to the exact documented string, for every
fallback. -/
theorem formatStellarError_axios404_example :
    ∀ fallback : String,
      formatStellarError
        (JSVal.obj false
          [("isAxiosError", JSVal.boolean true),
           ("message", JSVal.str "Request failed"),
           ("response", JSVal.obj false
             [("status", JSVal.num 404),
              ("statusText", JSVal.str "Not Found"),
              ("data", JSVal.obj false [("x", JSVal.num 1)])])])
        fallback
      = Except.ok
          (JSVal.str "HTTP 404 – Not Found – Request failed – Response: \x7b\"x\":1\x7d") :=
  fun _ => rfl

/-- C5: when both parsers produce a fragment, `formatStellarError` returns
the Axios fragment, `" | "`, then the Horizon fragment, in that fixed
order; when only one fragment is produced it is returned alone with no
separator. -/
theorem formatStellarError_joins_fragments :
    ∀ (e : JSVal) (fallback : String) (a b : String),
      (parseAxiosError e = Except.ok (some a) → parseHorizonError e = some b →
        formatStellarError e fallback = Except.ok (JSVal.str (a ++ " | " ++ b))) ∧
      (parseAxiosError e = Except.ok (some a) → parseHorizonError e = none →
        formatStellarError e fallback = Except.ok (JSVal.str a)) ∧
      (parseAxiosError e = Except.ok none → parseHorizonError e = some b →
        formatStellarError e fallback = Except.ok (JSVal.str b)) := by
  intro e fallback a b
  refine ⟨?_, ?_, ?_⟩
  · intro hA hB
    have ha := parseAxiosError_fragment_ne_empty hA
    have hb := parseHorizonError_fragment_ne_empty hB
    have ha' : (a != "") = true := bne_iff_ne.mpr ha
    have hb' : (b != "") = true := bne_iff_ne.mpr hb
    have hcond : (truthyStrOpt (some a) || truthyStrOpt (some b)) = true := by
      simp [truthyStrOpt, ha']
    simp only [formatStellarError, hA, hB]
    rw [if_pos hcond]
    have hlist : (([some a, some b].filterMap id).filter (fun s => s != "")) = [a, b] := by
      simp [List.filterMap_cons, List.filter_cons, ha', hb']
    rw [hlist]
    rfl
  · intro hA hB
    have ha := parseAxiosError_fragment_ne_empty hA
    have ha' : (a != "") = true := bne_iff_ne.mpr ha
    have hcond : (truthyStrOpt (some a) || truthyStrOpt none) = true := by
      simp [truthyStrOpt, ha']
    simp only [formatStellarError, hA, hB]
    rw [if_pos hcond]
    have hlist : (([some a, none].filterMap id).filter (fun s => s != "")) = [a] := by
      simp [List.filterMap_cons, List.filter_cons, ha']
    rw [hlist]
    rfl
  · intro hA hB
    have hb := parseHorizonError_fragment_ne_empty hB
    have hb' : (b != "") = true := bne_iff_ne.mpr hb
    have hcond : (truthyStrOpt (none : Option String) || truthyStrOpt (some b)) = true := by
      simp [truthyStrOpt, hb']
    simp only [formatStellarError, hA, hB]
    rw [if_pos hcond]
    have hlist : ((([none, some b] : List (Option String)).filterMap id).filter
        (fun s => s != "")) = [b] := by
      simp [List.filterMap_cons, List.filter_cons, hb']
    rw [hlist]
    rfl

/-- C5 witness: an error matching both shapes at once is formatted as the
Axios fragment, `" | "`, then the Horizon fragment. -/
theorem formatStellarError_joins_fragments_witness :
    formatStellarError
      (JSVal.obj false
        [("isAxiosError", JSVal.boolean true),
         ("message", JSVal.str "boom"),
         ("status", JSVal.num 500),
         ("response", JSVal.obj false [("status", JSVal.num 500)])])
      "Transaction failed."
      = Except.ok (JSVal.str "HTTP 500 – boom | Horizon HTTP 500") :=
  (formatStellarError_joins_fragments
      (JSVal.obj false
        [("isAxiosError", JSVal.boolean true),
         ("message", JSVal.str "boom"),
         ("status", JSVal.num 500),
         ("response", JSVal.obj false [("status", JSVal.num 500)])])
      "Transaction failed." "HTTP 500 – boom" "Horizon HTTP 500").1 rfl rfl

/-- C6 (counterexample): an `Error` instance whose `message` was set to the
number `1` matches none of the three recognized shapes of the claim (it is
not Axios-marked, not ledger-API-shaped, and its `message` property is not
a string), yet `formatStellarError` returns the raw message value `1` —
not the supplied fallback — because the `error instanceof Error &&
error.message` branch tests truthiness, not string-ness. -/
theorem error_instance_nonstring_message_beats_fallback :
    formatStellarError (JSVal.obj true [("message", JSVal.num 1)]) "the fallback"
      = Except.ok (JSVal.num 1) ∧
    formatStellarError (JSVal.obj true [("message", JSVal.num 1)]) "the fallback"
      ≠ Except.ok (JSVal.str "the fallback") := by
  refine ⟨rfl, fun h => ?_⟩
  have h' : (Except.ok (JSVal.num 1) : Except Unit JSVal)
      = Except.ok (JSVal.str "the fallback") := h
  injection h' with h1
  exact JSVal.noConfusion h1

/-- C6 (amended): for every error that is not Axios-shaped, not
ledger-API-shaped, not an `Error` instance with a truthy `message`, and not
an object with a string `message` property, `formatStellarError` returns
exactly the supplied fallback string. -/
theorem formatStellarError_fallback_when_unrecognized :
    ∀ (e : JSVal) (fallback : String),
      axiosGuard e = false →
      horizonGuard e = false →
      (isErrorInst e && truthy (getField e "message")) = false →
      (isNonNullObj e && hasField e "message" && isString (getField e "message")) = false →
      formatStellarError e fallback = Except.ok (JSVal.str fallback) := by
  intro e fallback hA hH h3 h4
  have hPA := parseAxiosError_guard_false hA
  have hPH := parseHorizonError_guard_false hH
  simp [formatStellarError, hPA, hPH, h3, h4, truthyStrOpt]

/-- C6 witness: a bare number satisfies all four side conditions and
normalizes to the fallback. -/
theorem formatStellarError_fallback_when_unrecognized_witness :
    formatStellarError (JSVal.num 42) "No description available."
      = Except.ok (JSVal.str "No description available.") :=
  formatStellarError_fallback_when_unrecognized (JSVal.num 42) "No description available."
    rfl rfl rfl rfl
